import Mathlib

/-!
Verification development for `airflow/utils/session.py`: the
`create_session` context manager and the `provide_session` decorator
(with its inner `wrapper` and `retryable_transaction` functions).

The embedding is a shallow one.  A decorated call is modelled as a pure
function from the call's ingredients to a pair of

* a result (`Except Err (Option α)`: the Python function either raises an
  exception, modelled by `Except.error`, or returns a value; a Python
  function that falls off the end of its body returns `None`, modelled by
  `Option.none`), and
* a trace of observable side effects (`List Event`): session-factory
  invocations, invocations of the wrapped operation, and `commit`,
  `rollback` and `close` method invocations together with the value they
  were invoked on.

The wrapped function `func` is modelled extensionally by the outcome of
its i-th invocation (`op : Nat → Except Err α`): its actual arguments are
fixed for the whole decorated call, so only the invocation index can
influence the outcome.  Session objects produced by the factory
(`settings.Session()`) are numbered; `commit` and `rollback` on a session
may themselves raise, which is captured by a `SessionBehavior` record per
session number.  Invoking `rollback` on a Python value that is not a
session (in particular on a string) raises `AttributeError` and performs
no rollback; this matters because of the `elif session_in_args` branch of
`wrapper`, which passes the string `func_params[func_params.index('session')]`
(that is, the *name* `'session'`) where a session object is expected.
-/

namespace AirflowSession

/-- Exception taxonomy.  `operational tag` models SQLAlchemy's
`OperationalError` (the spec's `TransientStoreError`); `other tag` models
any exception outside the configured retryable set; `attributeError`
models the `AttributeError` Python raises when a method such as
`rollback` is looked up on a value that does not have it (e.g. a string). -/
inductive Err where
  | operational (tag : Nat)
  | other (tag : Nat)
  | attributeError
deriving DecidableEq, Repr

/-- A Python value as far as this fragment can observe it: a session
object (numbered), a string, or anything else. -/
inductive PyVal where
  | session (id : Nat)
  | str (s : String)
  | otherVal (tag : Nat)
deriving DecidableEq, Repr

/-- Observable side effects of one decorated call. -/
inductive Event where
  | factoryNew (id : Nat)
  | opCall
  | commit (v : PyVal)
  | rollback (v : PyVal)
  | close (v : PyVal)
deriving DecidableEq, Repr

/-- How the `commit` and `rollback` methods of a given session object
behave: `none` means the method returns normally, `some e` means it
raises `e`.  The default is a normally behaving session. -/
structure SessionBehavior where
  commitErr : Option Err := none
  rollbackErr : Option Err := none
deriving DecidableEq, Repr

/-- Decidable equality of outcomes, so that concrete runs of the model can
be checked by `decide`. -/
instance exceptDecEq {ε α : Type} [DecidableEq ε] [DecidableEq α] :
    DecidableEq (Except ε α)
  | Except.ok a, Except.ok b =>
    if h : a = b then Decidable.isTrue (by rw [h])
    else Decidable.isFalse (by intro hc; cases hc; exact h rfl)
  | Except.ok _, Except.error _ => Decidable.isFalse (by intro hc; cases hc)
  | Except.error _, Except.ok _ => Decidable.isFalse (by intro hc; cases hc)
  | Except.error a, Except.error b =>
    if h : a = b then Decidable.isTrue (by rw [h])
    else Decidable.isFalse (by intro hc; cases hc; exact h rfl)

/-- All sessions behave normally (no commit/rollback failures). -/
def behOk : Nat → SessionBehavior := fun _ => {}

/-- Number of occurrences of an event in a trace. -/
def ecount (e : Event) (tr : List Event) : Nat :=
  tr.countP (fun x => decide (x = e))

/-- The decorator's default retryable set `exceptions=(OperationalError,)`:
membership test of an exception in that tuple of classes. -/
def defaultRetryable : Err → Bool
  | Err.operational _ => true
  | _ => false

/-- `true` when the outcome is an exception belonging to the configured
retryable set. -/
def failsRetryably (retryable : Err → Bool) : Except Err α → Bool
  | Except.error e => retryable e
  | Except.ok _ => false

/-- The Python method call `session.rollback()`: on a session object it
is invoked (one `Event.rollback`) and returns or raises per the session's
behaviour; on any other value the attribute lookup itself raises
`AttributeError` and nothing is invoked. -/
def doRollback (beh : Nat → SessionBehavior) : PyVal → Except Err Unit × List Event
  | PyVal.session i =>
      (match (beh i).rollbackErr with
       | none => Except.ok ()
       | some e => Except.error e,
       [Event.rollback (PyVal.session i)])
  | _ => (Except.error Err.attributeError, [])

/-- `session_in_args` of `wrapper`:
`arg_session in func_params and func_params.index(arg_session) < len(args)`. -/
def session_in_args (func_params : List String) (args : List PyVal) : Bool :=
  func_params.contains "session" &&
    decide (List.indexOf "session" func_params < args.length)

/-- `session_in_kwargs` of `wrapper`: `arg_session in kwargs`. -/
def session_in_kwargs (kwargs : List (String × PyVal)) : Bool :=
  (kwargs.lookup "session").isSome

/-- The `for i in range(attempts)` loop of `retryable_transaction`,
run over the remaining loop indices.  Each iteration calls `func`
(`Event.opCall`); a retryable exception on the last index (`i == attempts - 1`)
is re-raised; a retryable exception earlier triggers `session.rollback()`
and the next iteration; a non-retryable exception is not caught.  If the
index list is exhausted without returning, the Python function returns
`None`. -/
def retryLoop (op : Nat → Except Err α) (retryable : Err → Bool)
    (beh : Nat → SessionBehavior) (session : PyVal) (attempts : Int) :
    List Nat → Except Err (Option α) × List Event
  | [] => (Except.ok none, [])
  | i :: rest =>
    match op i with
    | Except.ok v => (Except.ok (some v), [Event.opCall])
    | Except.error e =>
      if retryable e then
        if (i : Int) = attempts - 1 then
          (Except.error e, [Event.opCall])
        else
          match doRollback beh session with
          | (Except.error e2, evs) => (Except.error e2, Event.opCall :: evs)
          | (Except.ok _, evs) =>
            let r := retryLoop op retryable beh session attempts rest
            (r.1, Event.opCall :: (evs ++ r.2))
      else
        (Except.error e, [Event.opCall])

/-- `retryable_transaction(session, attempts, exceptions)` from the source:
the retry loop over `range(attempts)` (empty when `attempts <= 0`). -/
def retryable_transaction (op : Nat → Except Err α) (retryable : Err → Bool)
    (beh : Nat → SessionBehavior) (session : PyVal) (attempts : Int) :
    Except Err (Option α) × List Event :=
  retryLoop op retryable beh session attempts (List.range attempts.toNat)

/-- The `create_session` context manager, combined with the semantics of
`with create_session() as session: body`:

* `session = settings.Session()` (one `Event.factoryNew`);
* the body runs at the `yield`;
* if the body returns normally, `session.commit()` is invoked; if commit
  raises, the `except Exception` clause invokes `session.rollback()` and
  re-raises (a rollback failure replaces the propagating exception);
* if the body raises, `session.rollback()` is invoked and the exception
  is re-raised (again a rollback failure replaces it);
* `finally: session.close()` is invoked exactly once on every path. -/
def create_session (beh : Nat → SessionBehavior) (sid : Nat)
    (body : PyVal → Except Err (Option α) × List Event) :
    Except Err (Option α) × List Event :=
  let s := PyVal.session sid
  let res := body s
  match res.1 with
  | Except.ok v =>
    match (beh sid).commitErr with
    | none =>
      (Except.ok v, Event.factoryNew sid :: res.2 ++ [Event.commit s, Event.close s])
    | some e =>
      (Except.error (((beh sid).rollbackErr).getD e),
       Event.factoryNew sid :: res.2 ++ [Event.commit s, Event.rollback s, Event.close s])
  | Except.error e =>
    (Except.error (((beh sid).rollbackErr).getD e),
     Event.factoryNew sid :: res.2 ++ [Event.rollback s, Event.close s])

/-- The `wrapper` closure produced by `provide_session`, applied to one
call.  `func_params` models `func.__code__.co_varnames`, `args` and
`kwargs` the call's arguments, `attempts`/`retryable` the decorator
configuration, `beh` the behaviour of each session object and `freshId`
the number of the session the factory would produce.

Branches exactly as the source:
* `if session_in_kwargs`: run the retry loop with `kwargs['session']`;
* `elif session_in_args`: run it with
  `func_params[func_params.index('session')]` — the *string* `'session'`,
  not the caller's positional argument;
* `else`: open `create_session()` and run the retry loop with the fresh
  session. -/
def wrapper (func_params : List String) (args : List PyVal)
    (kwargs : List (String × PyVal)) (op : Nat → Except Err α)
    (retryable : Err → Bool) (attempts : Int)
    (beh : Nat → SessionBehavior) (freshId : Nat) :
    Except Err (Option α) × List Event :=
  if session_in_kwargs kwargs then
    retryable_transaction op retryable beh
      ((kwargs.lookup "session").getD (PyVal.str "")) attempts
  else if session_in_args func_params args then
    retryable_transaction op retryable beh
      (PyVal.str (func_params.getD (List.indexOf "session" func_params) "")) attempts
  else
    create_session beh freshId
      (fun session => retryable_transaction op retryable beh session attempts)

/-! ### Trace-counting helpers -/

theorem ecount_nil (e : Event) : ecount e [] = 0 := rfl

theorem ecount_cons (e a : Event) (l : List Event) :
    ecount e (a :: l) = ecount e l + if a = e then 1 else 0 := by
  simp [ecount, List.countP_cons]

theorem ecount_append (e : Event) (l1 l2 : List Event) :
    ecount e (l1 ++ l2) = ecount e l1 + ecount e l2 := by
  simp [ecount, List.countP_append]

/-- `session.rollback()` only ever records rollback events. -/
theorem doRollback_events (beh : Nat → SessionBehavior) (s : PyVal) :
    ∀ e ∈ (doRollback beh s).2, ∃ v, e = Event.rollback v := by
  cases s with
  | session i =>
    intro e he
    simp only [doRollback, List.mem_singleton] at he
    exact ⟨_, he⟩
  | str s => intro e he; simp [doRollback] at he
  | otherVal t => intro e he; simp [doRollback] at he

/-- The retry loop records only operation invocations and rollbacks: it
never creates, commits or closes a session. -/
theorem retryLoop_events (op : Nat → Except Err α) (retryable : Err → Bool)
    (beh : Nat → SessionBehavior) (session : PyVal) (attempts : Int) :
    ∀ (l : List Nat) (e : Event),
      e ∈ (retryLoop op retryable beh session attempts l).2 →
      e = Event.opCall ∨ ∃ v, e = Event.rollback v := by
  intro l
  induction l with
  | nil => intro e he; simp [retryLoop] at he
  | cons i rest ih =>
    intro e he
    rw [retryLoop] at he
    cases hop : op i with
    | ok v =>
      rw [hop] at he
      simp only [List.mem_singleton] at he
      exact Or.inl he
    | error err =>
      rw [hop] at he
      by_cases hr : retryable err = true
      · by_cases hi : (i : Int) = attempts - 1
        · simp only [hr, hi, if_true, if_pos, List.mem_singleton] at he
          exact Or.inl he
        · have hevs := doRollback_events beh session
          rcases hd : doRollback beh session with ⟨res, evs⟩
          rw [hd] at hevs
          simp only [hr, if_true, if_neg hi, hd] at he
          cases res with
          | error e2 =>
            simp only [List.mem_cons] at he
            rcases he with he | he
            · exact Or.inl he
            · exact Or.inr (hevs e he)
          | ok u =>
            simp only [List.mem_cons, List.mem_append] at he
            rcases he with he | he | he
            · exact Or.inl he
            · exact Or.inr (hevs e he)
            · exact ih e he
      · simp only [hr, Bool.false_eq_true, if_false, List.mem_singleton] at he
        exact Or.inl he

/-- An event that is neither an operation invocation nor a rollback never
occurs in a retry-loop trace. -/
theorem retryLoop_ecount_zero (op : Nat → Except Err α) (retryable : Err → Bool)
    (beh : Nat → SessionBehavior) (session : PyVal) (attempts : Int)
    (l : List Nat) (x : Event)
    (h1 : x ≠ Event.opCall) (h2 : ∀ v, x ≠ Event.rollback v) :
    ecount x (retryLoop op retryable beh session attempts l).2 = 0 := by
  rw [ecount, List.countP_eq_zero]
  intro e he
  simp only [decide_eq_true_eq]
  rcases retryLoop_events op retryable beh session attempts l e he with h | ⟨v, h⟩
  · subst h; exact fun hc => h1 hc.symm
  · subst h; exact fun hc => h2 v hc.symm

/-! ### Step equations for the retry loop -/

theorem retryLoop_nil (op : Nat → Except Err α) (retryable : Err → Bool)
    (beh : Nat → SessionBehavior) (session : PyVal) (attempts : Int) :
    retryLoop op retryable beh session attempts [] = (Except.ok none, []) := rfl

theorem retryLoop_cons_ok (op : Nat → Except Err α) (retryable : Err → Bool)
    (beh : Nat → SessionBehavior) (session : PyVal) (attempts : Int)
    (i : Nat) (rest : List Nat) (v : α) (hop : op i = Except.ok v) :
    retryLoop op retryable beh session attempts (i :: rest) =
      (Except.ok (some v), [Event.opCall]) := by
  rw [retryLoop, hop]

theorem retryLoop_cons_fatal (op : Nat → Except Err α) (retryable : Err → Bool)
    (beh : Nat → SessionBehavior) (session : PyVal) (attempts : Int)
    (i : Nat) (rest : List Nat) (e : Err)
    (hop : op i = Except.error e) (hr : retryable e = false) :
    retryLoop op retryable beh session attempts (i :: rest) =
      (Except.error e, [Event.opCall]) := by
  rw [retryLoop, hop]; simp [hr]

theorem retryLoop_cons_last (op : Nat → Except Err α) (retryable : Err → Bool)
    (beh : Nat → SessionBehavior) (session : PyVal) (attempts : Int)
    (i : Nat) (rest : List Nat) (e : Err)
    (hop : op i = Except.error e) (hr : retryable e = true)
    (hi : (i : Int) = attempts - 1) :
    retryLoop op retryable beh session attempts (i :: rest) =
      (Except.error e, [Event.opCall]) := by
  rw [retryLoop, hop]; simp [hr, hi]

theorem retryLoop_cons_retry (op : Nat → Except Err α) (retryable : Err → Bool)
    (beh : Nat → SessionBehavior) (sid : Nat) (attempts : Int)
    (i : Nat) (rest : List Nat) (e : Err)
    (hop : op i = Except.error e) (hr : retryable e = true)
    (hi : ¬((i : Int) = attempts - 1)) (hrb : (beh sid).rollbackErr = none) :
    retryLoop op retryable beh (PyVal.session sid) attempts (i :: rest) =
      ((retryLoop op retryable beh (PyVal.session sid) attempts rest).1,
       Event.opCall :: Event.rollback (PyVal.session sid) ::
         (retryLoop op retryable beh (PyVal.session sid) attempts rest).2) := by
  rw [retryLoop, hop]
  have hd : doRollback beh (PyVal.session sid) =
      (Except.ok (), [Event.rollback (PyVal.session sid)]) := by
    simp [doRollback, hrb]
  simp [hr, hi, hd]

/-! ### Scenario lemmas for the retry loop run over `range' s n` -/

/-- Retry-bound scenario: over indices `s, …, s+n-1`, every attempt but
the last raises retryably, the last succeeds, and the session's rollback
behaves; the loop returns the success value after `n` operation
invocations and `n - 1` rollbacks. -/
theorem retryLoop_success (op : Nat → Except Err α) (retryable : Err → Bool)
    (beh : Nat → SessionBehavior) (sid : Nat) (attempts : Int) (v : α) :
    ∀ (n s : Nat), 1 ≤ n → (s : Int) + n = attempts →
    (beh sid).rollbackErr = none →
    (∀ j, s ≤ j → j + 1 < s + n → failsRetryably retryable (op j) = true) →
    op (s + n - 1) = Except.ok v →
    (retryLoop op retryable beh (PyVal.session sid) attempts (List.range' s n)).1
        = Except.ok (some v) ∧
    ecount Event.opCall
      (retryLoop op retryable beh (PyVal.session sid) attempts (List.range' s n)).2 = n ∧
    ecount (Event.rollback (PyVal.session sid))
      (retryLoop op retryable beh (PyVal.session sid) attempts (List.range' s n)).2 = n - 1 := by
  intro n
  induction n with
  | zero => intro s h1; exact absurd h1 (by omega)
  | succ k ih =>
    intro s _ hatt hrb hfail hsucc
    cases k with
    | zero =>
      have hs : op s = Except.ok v := by simpa using hsucc
      rw [List.range'_one,
        retryLoop_cons_ok op retryable beh (PyVal.session sid) attempts s [] v hs]
      refine ⟨rfl, by simp [ecount_cons, ecount_nil], by simp [ecount_cons, ecount_nil]⟩
    | succ m =>
      have hf : failsRetryably retryable (op s) = true :=
        hfail s (Nat.le_refl s) (by omega)
      cases hop : op s with
      | ok w => rw [hop] at hf; simp [failsRetryably] at hf
      | error e =>
        rw [hop] at hf
        have hr : retryable e = true := hf
        have hi : ¬((s : Int) = attempts - 1) := by omega
        rw [List.range'_succ,
          retryLoop_cons_retry op retryable beh sid attempts s _ e hop hr hi hrb]
        have hih := ih (s + 1) (by omega) (by push_cast; omega) hrb
          (fun j hj1 hj2 => hfail j (by omega) (by omega))
          (by have harith : s + 1 + (m + 1) - 1 = s + (m + 1 + 1) - 1 := by omega
              rw [harith]; exact hsucc)
        refine ⟨hih.1, ?_, ?_⟩
        · simp only [ecount_cons]
          rw [hih.2.1]
          simp
        · simp only [ecount_cons]
          rw [hih.2.2]
          simp

/-- Exhaustion scenario: over indices `s, …, s+n-1`, every attempt raises
retryably and the session's rollback behaves; the loop re-raises the last
attempt's exception after `n` operation invocations and `n - 1`
rollbacks. -/
theorem retryLoop_exhaust (op : Nat → Except Err α) (retryable : Err → Bool)
    (beh : Nat → SessionBehavior) (sid : Nat) (attempts : Int) :
    ∀ (n s : Nat), 1 ≤ n → (s : Int) + n = attempts →
    (beh sid).rollbackErr = none →
    (∀ j, s ≤ j → j < s + n → failsRetryably retryable (op j) = true) →
    (∀ e, op (s + n - 1) = Except.error e →
      (retryLoop op retryable beh (PyVal.session sid) attempts (List.range' s n)).1
        = Except.error e) ∧
    ecount Event.opCall
      (retryLoop op retryable beh (PyVal.session sid) attempts (List.range' s n)).2 = n ∧
    ecount (Event.rollback (PyVal.session sid))
      (retryLoop op retryable beh (PyVal.session sid) attempts (List.range' s n)).2 = n - 1 := by
  intro n
  induction n with
  | zero => intro s h1; exact absurd h1 (by omega)
  | succ k ih =>
    intro s _ hatt hrb hfail
    cases k with
    | zero =>
      have hf : failsRetryably retryable (op s) = true :=
        hfail s (Nat.le_refl s) (by omega)
      cases hop : op s with
      | ok w => rw [hop] at hf; simp [failsRetryably] at hf
      | error e0 =>
        rw [hop] at hf
        have hr : retryable e0 = true := hf
        have hi : (s : Int) = attempts - 1 := by omega
        rw [List.range'_one,
          retryLoop_cons_last op retryable beh (PyVal.session sid) attempts s [] e0 hop hr hi]
        refine ⟨?_, by simp [ecount_cons, ecount_nil], by simp [ecount_cons, ecount_nil]⟩
        intro e he
        have : op s = Except.error e := by simpa using he
        rw [hop] at this
        cases this
        rfl
    | succ m =>
      have hf : failsRetryably retryable (op s) = true :=
        hfail s (Nat.le_refl s) (by omega)
      cases hop : op s with
      | ok w => rw [hop] at hf; simp [failsRetryably] at hf
      | error e0 =>
        rw [hop] at hf
        have hr : retryable e0 = true := hf
        have hi : ¬((s : Int) = attempts - 1) := by omega
        rw [List.range'_succ,
          retryLoop_cons_retry op retryable beh sid attempts s _ e0 hop hr hi hrb]
        have hih := ih (s + 1) (by omega) (by push_cast; omega) hrb
          (fun j hj1 hj2 => hfail j (by omega) (by omega))
        refine ⟨?_, ?_, ?_⟩
        · intro e he
          refine hih.1 e ?_
          have harith : s + 1 + (m + 1) - 1 = s + (m + 1 + 1) - 1 := by omega
          rw [harith]; exact he
        · simp only [ecount_cons]
          rw [hih.2.1]
          simp
        · simp only [ecount_cons]
          rw [hih.2.2]
          simp

/-! ### Branch equations for `wrapper` and `create_session` -/

theorem wrapper_kwargs_eq (func_params : List String) (args : List PyVal)
    (kwargs : List (String × PyVal)) (op : Nat → Except Err α)
    (retryable : Err → Bool) (attempts : Int) (beh : Nat → SessionBehavior)
    (freshId : Nat) (hk : session_in_kwargs kwargs = true) :
    wrapper func_params args kwargs op retryable attempts beh freshId =
      retryable_transaction op retryable beh
        ((kwargs.lookup "session").getD (PyVal.str "")) attempts := by
  simp [wrapper, hk]

theorem wrapper_args_eq (func_params : List String) (args : List PyVal)
    (kwargs : List (String × PyVal)) (op : Nat → Except Err α)
    (retryable : Err → Bool) (attempts : Int) (beh : Nat → SessionBehavior)
    (freshId : Nat) (hk : session_in_kwargs kwargs = false)
    (ha : session_in_args func_params args = true) :
    wrapper func_params args kwargs op retryable attempts beh freshId =
      retryable_transaction op retryable beh
        (PyVal.str (func_params.getD (List.indexOf "session" func_params) "")) attempts := by
  simp [wrapper, hk, ha]

theorem wrapper_owned_eq (func_params : List String) (args : List PyVal)
    (kwargs : List (String × PyVal)) (op : Nat → Except Err α)
    (retryable : Err → Bool) (attempts : Int) (beh : Nat → SessionBehavior)
    (freshId : Nat) (hk : session_in_kwargs kwargs = false)
    (ha : session_in_args func_params args = false) :
    wrapper func_params args kwargs op retryable attempts beh freshId =
      create_session beh freshId
        (fun session => retryable_transaction op retryable beh session attempts) := by
  simp [wrapper, hk, ha]

theorem create_session_ok (beh : Nat → SessionBehavior) (sid : Nat)
    (body : PyVal → Except Err (Option α) × List Event) (v : Option α)
    (btr : List Event) (hb : body (PyVal.session sid) = (Except.ok v, btr))
    (hc : (beh sid).commitErr = none) :
    create_session beh sid body =
      (Except.ok v, Event.factoryNew sid :: btr ++
        [Event.commit (PyVal.session sid), Event.close (PyVal.session sid)]) := by
  simp [create_session, hb, hc]

theorem create_session_err (beh : Nat → SessionBehavior) (sid : Nat)
    (body : PyVal → Except Err (Option α) × List Event) (e : Err)
    (btr : List Event) (hb : body (PyVal.session sid) = (Except.error e, btr)) :
    create_session beh sid body =
      (Except.error (((beh sid).rollbackErr).getD e),
       Event.factoryNew sid :: btr ++
        [Event.rollback (PyVal.session sid), Event.close (PyVal.session sid)]) := by
  simp [create_session, hb]

theorem create_session_commit_fails (beh : Nat → SessionBehavior) (sid : Nat)
    (body : PyVal → Except Err (Option α) × List Event) (v : Option α) (e : Err)
    (btr : List Event) (hb : body (PyVal.session sid) = (Except.ok v, btr))
    (hc : (beh sid).commitErr = some e) :
    create_session beh sid body =
      (Except.error (((beh sid).rollbackErr).getD e),
       Event.factoryNew sid :: btr ++
        [Event.commit (PyVal.session sid), Event.rollback (PyVal.session sid),
         Event.close (PyVal.session sid)]) := by
  simp [create_session, hb, hc]

/-- Whatever the outcome of the body, of `commit` and of `rollback`, the
scope closes the session it created exactly once, provided the body's own
trace contains no close of it (which is the case for the retry loop). -/
theorem create_session_close_once (beh : Nat → SessionBehavior) (sid : Nat)
    (body : PyVal → Except Err (Option α) × List Event)
    (h : ecount (Event.close (PyVal.session sid)) (body (PyVal.session sid)).2 = 0) :
    ecount (Event.close (PyVal.session sid)) (create_session beh sid body).2 = 1 := by
  rcases hb : body (PyVal.session sid) with ⟨r, btr⟩
  rw [hb] at h
  cases r with
  | ok v =>
    cases hc : (beh sid).commitErr with
    | none =>
      rw [create_session_ok beh sid body v btr hb hc]
      simp [ecount_cons, ecount_append, ecount_nil, h]
    | some e =>
      rw [create_session_commit_fails beh sid body v e btr hb hc]
      simp [ecount_cons, ecount_append, ecount_nil, h]
  | error e =>
    rw [create_session_err beh sid body e btr hb]
    simp [ecount_cons, ecount_append, ecount_nil, h]

/-- The body of the owned-session branch is the retry loop, whose trace
contains neither commits, closes nor factory calls. -/
theorem retryable_transaction_ecount_zero (op : Nat → Except Err α)
    (retryable : Err → Bool) (beh : Nat → SessionBehavior) (session : PyVal)
    (attempts : Int) (x : Event)
    (h1 : x ≠ Event.opCall) (h2 : ∀ v, x ≠ Event.rollback v) :
    ecount x (retryable_transaction op retryable beh session attempts).2 = 0 := by
  rw [retryable_transaction]
  exact retryLoop_ecount_zero op retryable beh session attempts _ x h1 h2

/-! ### Claim theorems -/

/-- C1: the claim says that when the caller supplies the session
positionally, the retry path (and in particular any rollback performed
between transient-failure attempts) uses the caller-supplied session
object.  The code instead passes `func_params[func_params.index('session')]`
— the parameter *name* — to `retryable_transaction`.  Evaluating the
decorated call at `func` with parameters `['session']`, positional
argument the session object `7`, `attempts = 2`, and an operation that
raises a transient failure on its first invocation: rollback is attempted
on the string `'session'`, which raises `AttributeError`; the caller's
session object is never rolled back. -/
theorem positional_session_rollback_misses_caller_session :
    (wrapper ["session"] [PyVal.session 7] []
        (fun i => if i = 0 then Except.error (Err.operational 0) else Except.ok (1 : Nat))
        defaultRetryable 2 behOk 1)
      = (Except.error Err.attributeError, [Event.opCall]) ∧
    ecount (Event.rollback (PyVal.session 7))
      (wrapper ["session"] [PyVal.session 7] []
        (fun i => if i = 0 then Except.error (Err.operational 0) else Except.ok (1 : Nat))
        defaultRetryable 2 behOk 1).2 = 0 := by
  constructor <;> decide

/-- C2: when the caller supplies no session, the handle acquired by the
decorator is closed exactly once on every outcome (any operation
behaviour, any commit/rollback behaviour of the session, any attempt
budget); when the caller supplies the session (by keyword or
positionally), the decorator closes nothing at all. -/
theorem release_exactly_once_owned_never_for_supplied {α : Type}
    (func_params : List String) (args : List PyVal)
    (kwargs : List (String × PyVal)) (op : Nat → Except Err α)
    (retryable : Err → Bool) (attempts : Int) (beh : Nat → SessionBehavior)
    (freshId : Nat) :
    (session_in_kwargs kwargs = false → session_in_args func_params args = false →
      ecount (Event.close (PyVal.session freshId))
        (wrapper func_params args kwargs op retryable attempts beh freshId).2 = 1) ∧
    ((session_in_kwargs kwargs = true ∨ session_in_args func_params args = true) →
      ∀ v, ecount (Event.close v)
        (wrapper func_params args kwargs op retryable attempts beh freshId).2 = 0) := by
  constructor
  · intro hk ha
    rw [wrapper_owned_eq func_params args kwargs op retryable attempts beh freshId hk ha]
    apply create_session_close_once
    exact retryable_transaction_ecount_zero op retryable beh (PyVal.session freshId)
      attempts _ (by simp) (by intro w; simp)
  · intro h v
    by_cases hk : session_in_kwargs kwargs = true
    · rw [wrapper_kwargs_eq func_params args kwargs op retryable attempts beh freshId hk]
      exact retryable_transaction_ecount_zero op retryable beh _ attempts _
        (by simp) (by intro w; simp)
    · have hk' : session_in_kwargs kwargs = false := by
        cases hkk : session_in_kwargs kwargs
        · rfl
        · exact absurd hkk hk
      have ha : session_in_args func_params args = true := by
        rcases h with h | h
        · exact absurd h hk
        · exact h
      rw [wrapper_args_eq func_params args kwargs op retryable attempts beh freshId hk' ha]
      exact retryable_transaction_ecount_zero op retryable beh _ attempts _
        (by simp) (by intro w; simp)

/-- C2 witness: a concrete owned-session call (no session supplied,
`attempts = 2`, operation succeeds immediately) closes the acquired
session exactly once. -/
theorem release_exactly_once_owned_never_for_supplied_witness :
    ecount (Event.close (PyVal.session 5))
      (wrapper [] [] [] (fun _ => Except.ok (0 : Nat))
        defaultRetryable 2 behOk 5).2 = 1 :=
  (release_exactly_once_owned_never_for_supplied [] [] []
    (fun _ => Except.ok (0 : Nat)) defaultRetryable 2 behOk 5).1 rfl rfl

/-- C3 counterexample: the claim quantifies over every call of a
decorated function, but on a call that supplies the session positionally
(`attempts = 2`, transient failure then success) the wrapped call does
not return the operation's value and the operation is invoked once, not
twice: the between-attempt rollback is attempted on the parameter-name
string and raises `AttributeError`. -/
theorem retry_bound_fails_for_positional_session :
    (wrapper ["session"] [PyVal.session 4] []
        (fun i => if i = 0 then Except.error (Err.operational 11) else Except.ok (42 : Nat))
        defaultRetryable 2 behOk 0).1 ≠ Except.ok (some 42) ∧
    ecount Event.opCall
      (wrapper ["session"] [PyVal.session 4] []
        (fun i => if i = 0 then Except.error (Err.operational 11) else Except.ok (42 : Nat))
        defaultRetryable 2 behOk 0).2 ≠ 2 := by
  constructor <;> decide

/-- C3 amended: for every `N ≥ 1`, if `attempts = N` and the operation
raises a retryable failure on each of its first `N - 1` invocations and
returns a value on the `N`-th, the wrapped call returns that value and
the operation is invoked exactly `N` times — provided the session is not
supplied positionally (where the parameter-name defect of C1 breaks the
retry path) and the session used for between-attempt rollback behaves
normally: either the caller supplies a session object by keyword whose
rollback does not raise, or no session is supplied and the fresh
session's commit and rollback do not raise. -/
theorem retry_bound_nonpositional {α : Type} (op : Nat → Except Err α)
    (retryable : Err → Bool) (beh : Nat → SessionBehavior) (N : Nat) (v : α)
    (hN : 1 ≤ N)
    (hfail : ∀ j, j + 1 < N → failsRetryably retryable (op j) = true)
    (hsucc : op (N - 1) = Except.ok v) :
    (∀ (kwargs : List (String × PyVal)) (sid : Nat),
      kwargs.lookup "session" = some (PyVal.session sid) →
      (beh sid).rollbackErr = none →
      ∀ (func_params : List String) (args : List PyVal) (freshId : Nat),
        (wrapper func_params args kwargs op retryable (N : Int) beh freshId).1
          = Except.ok (some v) ∧
        ecount Event.opCall
          (wrapper func_params args kwargs op retryable (N : Int) beh freshId).2 = N) ∧
    (∀ (func_params : List String) (args : List PyVal)
      (kwargs : List (String × PyVal)) (freshId : Nat),
      session_in_kwargs kwargs = false →
      session_in_args func_params args = false →
      (beh freshId).rollbackErr = none →
      (beh freshId).commitErr = none →
      (wrapper func_params args kwargs op retryable (N : Int) beh freshId).1
        = Except.ok (some v) ∧
      ecount Event.opCall
        (wrapper func_params args kwargs op retryable (N : Int) beh freshId).2 = N) := by
  have hloop : ∀ sid : Nat, (beh sid).rollbackErr = none →
      (retryLoop op retryable beh (PyVal.session sid) (N : Int) (List.range' 0 N)).1
        = Except.ok (some v) ∧
      ecount Event.opCall
        (retryLoop op retryable beh (PyVal.session sid) (N : Int) (List.range' 0 N)).2 = N ∧
      ecount (Event.rollback (PyVal.session sid))
        (retryLoop op retryable beh (PyVal.session sid) (N : Int) (List.range' 0 N)).2
          = N - 1 := by
    intro sid hrb
    exact retryLoop_success op retryable beh sid (N : Int) v N 0 hN (by omega) hrb
      (fun j _ hj => hfail j (by omega)) (by simpa using hsucc)
  have hRT : ∀ sid : Nat,
      retryable_transaction op retryable beh (PyVal.session sid) (N : Int) =
        retryLoop op retryable beh (PyVal.session sid) (N : Int) (List.range' 0 N) := by
    intro sid
    rw [retryable_transaction, Int.toNat_natCast, List.range_eq_range']
  constructor
  · intro kwargs sid hkv hrb func_params args freshId
    have hk : session_in_kwargs kwargs = true := by
      rw [session_in_kwargs, hkv]; rfl
    rw [wrapper_kwargs_eq func_params args kwargs op retryable (N : Int) beh freshId hk,
      hkv]
    simp only [Option.getD_some]
    rw [hRT sid]
    exact ⟨(hloop sid hrb).1, (hloop sid hrb).2.1⟩
  · intro func_params args kwargs freshId hk ha hrb hc
    rw [wrapper_owned_eq func_params args kwargs op retryable (N : Int) beh freshId hk ha]
    rcases hb : retryLoop op retryable beh (PyVal.session freshId) (N : Int)
        (List.range' 0 N) with ⟨rr, btr⟩
    have hfacts := hloop freshId hrb
    rw [hb] at hfacts
    have hrr : rr = Except.ok (some v) := hfacts.1
    subst hrr
    have hbody : (fun session => retryable_transaction op retryable beh session (N : Int))
        (PyVal.session freshId) = (Except.ok (some v), btr) := by
      show retryable_transaction op retryable beh (PyVal.session freshId) (N : Int)
        = (Except.ok (some v), btr)
      rw [hRT freshId, hb]
    rw [create_session_ok beh freshId _ (some v) btr hbody hc]
    refine ⟨rfl, ?_⟩
    simp [ecount_cons, ecount_append, ecount_nil, hfacts.2.1]

/-- C3 witness: keyword-supplied session `9`, `attempts = 2`, transient
failure then success: the call returns the value and the operation runs
twice. -/
theorem retry_bound_nonpositional_witness :
    (wrapper [] [] [("session", PyVal.session 9)]
        (fun i => if i = 0 then Except.error (Err.operational 5) else Except.ok (42 : Nat))
        defaultRetryable ((2 : Nat) : Int) behOk 0).1 = Except.ok (some 42) ∧
    ecount Event.opCall
      (wrapper [] [] [("session", PyVal.session 9)]
        (fun i => if i = 0 then Except.error (Err.operational 5) else Except.ok (42 : Nat))
        defaultRetryable ((2 : Nat) : Int) behOk 0).2 = 2 :=
  (retry_bound_nonpositional
      (fun i => if i = 0 then Except.error (Err.operational 5) else Except.ok (42 : Nat))
      defaultRetryable behOk 2 (42 : Nat) (by omega)
      (fun j hj => by
        have h0 : j = 0 := by omega
        subst h0; rfl)
      rfl).1
    [("session", PyVal.session 9)] 9 (by decide) rfl [] [] 0

/-- C4: on every successful call where the decorator created the handle
(no session supplied), `commit` is invoked on that handle exactly once,
and only after the final (successful) attempt of the wrapped operation:
the trace decomposes around the unique commit with no operation
invocation after it. -/
theorem commit_once_after_final_attempt {α : Type} (func_params : List String)
    (args : List PyVal) (kwargs : List (String × PyVal)) (op : Nat → Except Err α)
    (retryable : Err → Bool) (attempts : Int) (beh : Nat → SessionBehavior)
    (freshId : Nat) (r : Option α)
    (hk : session_in_kwargs kwargs = false)
    (ha : session_in_args func_params args = false)
    (hres : (wrapper func_params args kwargs op retryable attempts beh freshId).1
      = Except.ok r) :
    ecount (Event.commit (PyVal.session freshId))
      (wrapper func_params args kwargs op retryable attempts beh freshId).2 = 1 ∧
    ∃ pre post,
      (wrapper func_params args kwargs op retryable attempts beh freshId).2
        = pre ++ Event.commit (PyVal.session freshId) :: post ∧
      ecount Event.opCall post = 0 := by
  rw [wrapper_owned_eq func_params args kwargs op retryable attempts beh freshId hk ha]
    at hres ⊢
  rcases hb : retryable_transaction op retryable beh (PyVal.session freshId) attempts
    with ⟨rr, btr⟩
  have hbody : (fun session => retryable_transaction op retryable beh session attempts)
      (PyVal.session freshId) = (rr, btr) := hb
  have hcz : ecount (Event.commit (PyVal.session freshId)) btr = 0 := by
    have hz := retryable_transaction_ecount_zero op retryable beh (PyVal.session freshId)
      attempts (Event.commit (PyVal.session freshId)) (by simp) (by intro w; simp)
    rw [hb] at hz
    exact hz
  cases rr with
  | error e =>
    rw [create_session_err beh freshId _ e btr hbody] at hres
    simp at hres
  | ok w =>
    cases hc : (beh freshId).commitErr with
    | some e =>
      rw [create_session_commit_fails beh freshId _ w e btr hbody hc] at hres
      simp at hres
    | none =>
      rw [create_session_ok beh freshId _ w btr hbody hc]
      constructor
      · simp [ecount_cons, ecount_append, ecount_nil, hcz]
      · refine ⟨Event.factoryNew freshId :: btr,
          [Event.close (PyVal.session freshId)], ?_, ?_⟩
        · simp
        · simp [ecount_cons, ecount_nil]

/-- C4 witness: a concrete owned-session success (operation returns `7`
on its first attempt, `attempts = 2`) commits exactly once. -/
theorem commit_once_after_final_attempt_witness :
    ecount (Event.commit (PyVal.session 0))
      (wrapper [] [] [] (fun _ => Except.ok (7 : Nat))
        defaultRetryable 2 behOk 0).2 = 1 :=
  (commit_once_after_final_attempt [] [] [] (fun _ => Except.ok (7 : Nat))
    defaultRetryable 2 behOk 0 (some 7) rfl rfl (by decide)).1

/-- C5 counterexample: in the claimed scenario (`attempts = 3`, no
session supplied, every invocation raises a transient failure) the code
invokes `rollback` on the handle three times, not the claimed two: twice
between attempts inside the retry loop, and once more in the scope's
exception path before the failure propagates. -/
theorem exhaustion_rollback_thrice_not_twice :
    ecount (Event.rollback (PyVal.session 0))
      (wrapper ["session"] [] []
        (fun i => (Except.error (Err.operational i) : Except Err Nat))
        defaultRetryable 3 behOk 0).2 = 3 ∧
    ecount (Event.rollback (PyVal.session 0))
      (wrapper ["session"] [] []
        (fun i => (Except.error (Err.operational i) : Except Err Nat))
        defaultRetryable 3 behOk 0).2 ≠ 2 := by
  constructor <;> decide

/-- C5 amended: with `attempts = 3`, no caller-supplied session, a fresh
session whose rollback behaves, and an operation raising a transient
(retryable) failure on every invocation, the wrapped call raises the
third attempt's failure, the operation is invoked exactly 3 times,
rollback is invoked on the handle exactly 3 times (2 between attempts
and 1 by the scope's exception path), the handle is closed exactly once,
and commit is never invoked. -/
theorem exhaustion_scenario_attempts_three {α : Type} (op : Nat → Except Err α)
    (beh : Nat → SessionBehavior) (freshId : Nat) (func_params : List String)
    (args : List PyVal) (kwargs : List (String × PyVal)) (e : Err)
    (hk : session_in_kwargs kwargs = false)
    (ha : session_in_args func_params args = false)
    (hrb : (beh freshId).rollbackErr = none)
    (hfail : ∀ j, j < 3 → failsRetryably defaultRetryable (op j) = true)
    (hlast : op 2 = Except.error e) :
    (wrapper func_params args kwargs op defaultRetryable 3 beh freshId).1
      = Except.error e ∧
    ecount Event.opCall
      (wrapper func_params args kwargs op defaultRetryable 3 beh freshId).2 = 3 ∧
    ecount (Event.rollback (PyVal.session freshId))
      (wrapper func_params args kwargs op defaultRetryable 3 beh freshId).2 = 3 ∧
    (∀ v, ecount (Event.commit v)
      (wrapper func_params args kwargs op defaultRetryable 3 beh freshId).2 = 0) ∧
    ecount (Event.close (PyVal.session freshId))
      (wrapper func_params args kwargs op defaultRetryable 3 beh freshId).2 = 1 := by
  rw [wrapper_owned_eq func_params args kwargs op defaultRetryable 3 beh freshId hk ha]
  have hE := retryLoop_exhaust op defaultRetryable beh freshId 3 3 0 (by omega)
    (by omega) hrb (fun j _ hj => hfail j (by omega))
  rcases hb : retryLoop op defaultRetryable beh (PyVal.session freshId) 3
      (List.range' 0 3) with ⟨rr, btr⟩
  rw [hb] at hE
  have hrr : rr = Except.error e := hE.1 e hlast
  subst hrr
  have hbody : (fun session => retryable_transaction op defaultRetryable beh session 3)
      (PyVal.session freshId) = (Except.error e, btr) := by
    show retryable_transaction op defaultRetryable beh (PyVal.session freshId) 3
      = (Except.error e, btr)
    rw [retryable_transaction, List.range_eq_range']
    exact hb
  have h3 : (3 : Int).toNat = 3 := rfl
  have hclosez : ecount (Event.close (PyVal.session freshId)) btr = 0 := by
    have hz := retryable_transaction_ecount_zero op defaultRetryable beh
      (PyVal.session freshId) 3 (Event.close (PyVal.session freshId))
      (by simp) (by intro w; simp)
    rw [retryable_transaction, h3, List.range_eq_range', hb] at hz
    exact hz
  have hcommitz : ∀ v, ecount (Event.commit v) btr = 0 := by
    intro v
    have hz := retryable_transaction_ecount_zero op defaultRetryable beh
      (PyVal.session freshId) 3 (Event.commit v) (by simp) (by intro w; simp)
    rw [retryable_transaction, h3, List.range_eq_range', hb] at hz
    exact hz
  rw [create_session_err beh freshId _ e btr hbody]
  rw [hrb]
  refine ⟨rfl, ?_, ?_, ?_, ?_⟩
  · simp [ecount_cons, ecount_append, ecount_nil, hE.2.1]
  · simp [ecount_cons, ecount_append, ecount_nil, hE.2.2]
  · intro v
    simp [ecount_cons, ecount_append, ecount_nil, hcommitz v]
  · simp [ecount_cons, ecount_append, ecount_nil, hclosez]

/-- C5 witness: the concrete scenario (operation raising
`OperationalError` tagged with the attempt index) raises the third
attempt's failure. -/
theorem exhaustion_scenario_attempts_three_witness :
    (wrapper ["session"] [] []
        (fun i => (Except.error (Err.operational i) : Except Err Nat))
        defaultRetryable 3 behOk 0).1 = Except.error (Err.operational 2) :=
  (exhaustion_scenario_attempts_three
    (fun i => (Except.error (Err.operational i) : Except Err Nat))
    behOk 0 ["session"] [] [] (Err.operational 2) rfl rfl rfl
    (fun _ _ => rfl) rfl).1

/-- C6 counterexample: with the session supplied positionally,
`attempts = 2` and every invocation raising a transient failure, the
wrapped call raises `AttributeError` (from the rollback attempted on the
parameter-name string), not the failure raised on the second attempt —
and the second attempt never even runs. -/
theorem exhaustion_reraise_fails_for_positional_session :
    (wrapper ["session"] [PyVal.session 3] []
        (fun i => (Except.error (Err.operational i) : Except Err Nat))
        defaultRetryable 2 behOk 0).1 = Except.error Err.attributeError ∧
    (wrapper ["session"] [PyVal.session 3] []
        (fun i => (Except.error (Err.operational i) : Except Err Nat))
        defaultRetryable 2 behOk 0).1 ≠ Except.error (Err.operational 1) := by
  constructor <;> decide

/-- C6 amended: for every `N ≥ 1`, if all `N` permitted attempts raise
retryable failures, the wrapped call raises exactly the failure of the
`N`-th attempt, unchanged, and never returns normally — provided the
session is not supplied positionally (the C1 defect) and the session
whose rollback runs between attempts (and, in the owned case, in the
scope's exception path) does not itself raise. -/
theorem exhaustion_reraises_last_nonpositional {α : Type} (op : Nat → Except Err α)
    (retryable : Err → Bool) (beh : Nat → SessionBehavior) (N : Nat) (e : Err)
    (hN : 1 ≤ N)
    (hfail : ∀ j, j < N → failsRetryably retryable (op j) = true)
    (hlast : op (N - 1) = Except.error e) :
    (∀ (kwargs : List (String × PyVal)) (sid : Nat),
      kwargs.lookup "session" = some (PyVal.session sid) →
      (beh sid).rollbackErr = none →
      ∀ (func_params : List String) (args : List PyVal) (freshId : Nat),
        (wrapper func_params args kwargs op retryable (N : Int) beh freshId).1
          = Except.error e ∧
        ecount Event.opCall
          (wrapper func_params args kwargs op retryable (N : Int) beh freshId).2 = N) ∧
    (∀ (func_params : List String) (args : List PyVal)
      (kwargs : List (String × PyVal)) (freshId : Nat),
      session_in_kwargs kwargs = false →
      session_in_args func_params args = false →
      (beh freshId).rollbackErr = none →
      (wrapper func_params args kwargs op retryable (N : Int) beh freshId).1
        = Except.error e ∧
      ecount Event.opCall
        (wrapper func_params args kwargs op retryable (N : Int) beh freshId).2 = N) := by
  have hloop : ∀ sid : Nat, (beh sid).rollbackErr = none →
      (retryLoop op retryable beh (PyVal.session sid) (N : Int) (List.range' 0 N)).1
        = Except.error e ∧
      ecount Event.opCall
        (retryLoop op retryable beh (PyVal.session sid) (N : Int) (List.range' 0 N)).2
          = N := by
    intro sid hrb
    have hE := retryLoop_exhaust op retryable beh sid (N : Int) N 0 hN (by omega) hrb
      (fun j _ hj => hfail j (by omega))
    exact ⟨hE.1 e (by simpa using hlast), hE.2.1⟩
  have hRT : ∀ sid : Nat,
      retryable_transaction op retryable beh (PyVal.session sid) (N : Int) =
        retryLoop op retryable beh (PyVal.session sid) (N : Int) (List.range' 0 N) := by
    intro sid
    rw [retryable_transaction, Int.toNat_natCast, List.range_eq_range']
  constructor
  · intro kwargs sid hkv hrb func_params args freshId
    have hk : session_in_kwargs kwargs = true := by
      rw [session_in_kwargs, hkv]; rfl
    rw [wrapper_kwargs_eq func_params args kwargs op retryable (N : Int) beh freshId hk,
      hkv]
    simp only [Option.getD_some]
    rw [hRT sid]
    exact hloop sid hrb
  · intro func_params args kwargs freshId hk ha hrb
    rw [wrapper_owned_eq func_params args kwargs op retryable (N : Int) beh freshId hk ha]
    rcases hb : retryLoop op retryable beh (PyVal.session freshId) (N : Int)
        (List.range' 0 N) with ⟨rr, btr⟩
    have hfacts := hloop freshId hrb
    rw [hb] at hfacts
    have hrr : rr = Except.error e := hfacts.1
    subst hrr
    have hbody : (fun session => retryable_transaction op retryable beh session (N : Int))
        (PyVal.session freshId) = (Except.error e, btr) := by
      show retryable_transaction op retryable beh (PyVal.session freshId) (N : Int)
        = (Except.error e, btr)
      rw [hRT freshId, hb]
    rw [create_session_err beh freshId _ e btr hbody, hrb]
    refine ⟨rfl, ?_⟩
    simp [ecount_cons, ecount_append, ecount_nil, hfacts.2]

/-- C6 witness: keyword-supplied session `2`, `attempts = 2`, both
attempts raising transient failures: the call raises the second attempt's
failure, after two invocations. -/
theorem exhaustion_reraises_last_nonpositional_witness :
    (wrapper [] [] [("session", PyVal.session 2)]
        (fun i => (Except.error (Err.operational (i + 10)) : Except Err Nat))
        defaultRetryable ((2 : Nat) : Int) behOk 0).1
      = Except.error (Err.operational 11) ∧
    ecount Event.opCall
      (wrapper [] [] [("session", PyVal.session 2)]
        (fun i => (Except.error (Err.operational (i + 10)) : Except Err Nat))
        defaultRetryable ((2 : Nat) : Int) behOk 0).2 = 2 :=
  (exhaustion_reraises_last_nonpositional
      (fun i => (Except.error (Err.operational (i + 10)) : Except Err Nat))
      defaultRetryable behOk 2 (Err.operational 11) (by omega)
      (fun _ _ => rfl) rfl).1
    [("session", PyVal.session 2)] 2 (by decide) rfl [] [] 0

/-- C7: when no session is supplied and the operation raises a
non-retryable failure on its first invocation (and the fresh session's
rollback behaves), the wrapped call raises that failure, the operation is
invoked exactly once, and the acquired handle is closed. -/
theorem fail_fast_owned_session {α : Type} (op : Nat → Except Err α)
    (retryable : Err → Bool) (beh : Nat → SessionBehavior) (attempts : Int)
    (freshId : Nat) (func_params : List String) (args : List PyVal)
    (kwargs : List (String × PyVal)) (e : Err)
    (hk : session_in_kwargs kwargs = false)
    (ha : session_in_args func_params args = false)
    (hop : op 0 = Except.error e) (hr : retryable e = false)
    (hA : 1 ≤ attempts) (hrb : (beh freshId).rollbackErr = none) :
    (wrapper func_params args kwargs op retryable attempts beh freshId).1
      = Except.error e ∧
    ecount Event.opCall
      (wrapper func_params args kwargs op retryable attempts beh freshId).2 = 1 ∧
    ecount (Event.close (PyVal.session freshId))
      (wrapper func_params args kwargs op retryable attempts beh freshId).2 = 1 := by
  rw [wrapper_owned_eq func_params args kwargs op retryable attempts beh freshId hk ha]
  obtain ⟨m, hm⟩ : ∃ m, attempts.toNat = m + 1 := ⟨attempts.toNat - 1, by omega⟩
  have hbody : (fun session => retryable_transaction op retryable beh session attempts)
      (PyVal.session freshId) = (Except.error e, [Event.opCall]) := by
    show retryable_transaction op retryable beh (PyVal.session freshId) attempts
      = (Except.error e, [Event.opCall])
    rw [retryable_transaction, hm, List.range_eq_range', List.range'_succ]
    exact retryLoop_cons_fatal op retryable beh (PyVal.session freshId) attempts 0 _
      e hop hr
  rw [create_session_err beh freshId _ e [Event.opCall] hbody, hrb]
  refine ⟨rfl, ?_, ?_⟩
  · simp [ecount_cons, ecount_append, ecount_nil]
  · simp [ecount_cons, ecount_append, ecount_nil]

/-- C7 witness: `attempts = 2`, operation raising a non-retryable failure
immediately: the call raises it after one invocation and one close. -/
theorem fail_fast_owned_session_witness :
    (wrapper [] [] [] (fun _ => (Except.error (Err.other 3) : Except Err Nat))
        defaultRetryable 2 behOk 4).1 = Except.error (Err.other 3) ∧
    ecount Event.opCall
      (wrapper [] [] [] (fun _ => (Except.error (Err.other 3) : Except Err Nat))
        defaultRetryable 2 behOk 4).2 = 1 :=
  ⟨(fail_fast_owned_session (fun _ => (Except.error (Err.other 3) : Except Err Nat))
      defaultRetryable behOk 2 4 [] [] [] (Err.other 3) rfl rfl rfl rfl
      (by omega) rfl).1,
   (fail_fast_owned_session (fun _ => (Except.error (Err.other 3) : Except Err Nat))
      defaultRetryable behOk 2 4 [] [] [] (Err.other 3) rfl rfl rfl rfl
      (by omega) rfl).2.1⟩

/-- C8: on every call where the caller explicitly supplies a session
(positionally or by keyword), the decorator invokes the session factory
zero times and closes nothing. -/
theorem supplied_session_no_factory_no_close {α : Type} (func_params : List String)
    (args : List PyVal) (kwargs : List (String × PyVal)) (op : Nat → Except Err α)
    (retryable : Err → Bool) (attempts : Int) (beh : Nat → SessionBehavior)
    (freshId : Nat)
    (h : session_in_kwargs kwargs = true ∨ session_in_args func_params args = true) :
    (∀ i, ecount (Event.factoryNew i)
      (wrapper func_params args kwargs op retryable attempts beh freshId).2 = 0) ∧
    (∀ v, ecount (Event.close v)
      (wrapper func_params args kwargs op retryable attempts beh freshId).2 = 0) := by
  have key : ∀ (x : Event), x ≠ Event.opCall → (∀ w, x ≠ Event.rollback w) →
      ecount x (wrapper func_params args kwargs op retryable attempts beh freshId).2
        = 0 := by
    intro x h1 h2
    by_cases hk : session_in_kwargs kwargs = true
    · rw [wrapper_kwargs_eq func_params args kwargs op retryable attempts beh freshId hk]
      exact retryable_transaction_ecount_zero op retryable beh _ attempts x h1 h2
    · have hk' : session_in_kwargs kwargs = false := by
        cases hkk : session_in_kwargs kwargs
        · rfl
        · exact absurd hkk hk
      have ha : session_in_args func_params args = true := by
        rcases h with h | h
        · exact absurd h hk
        · exact h
      rw [wrapper_args_eq func_params args kwargs op retryable attempts beh freshId hk' ha]
      exact retryable_transaction_ecount_zero op retryable beh _ attempts x h1 h2
  exact ⟨fun i => key (Event.factoryNew i) (by simp) (by intro w; simp),
    fun v => key (Event.close v) (by simp) (by intro w; simp)⟩

/-- C8 witness: a call supplying session `9` by keyword creates no
session via the factory and closes nothing. -/
theorem supplied_session_no_factory_no_close_witness :
    ecount (Event.factoryNew 0)
      (wrapper [] [] [("session", PyVal.session 9)] (fun _ => Except.ok (1 : Nat))
        defaultRetryable 2 behOk 0).2 = 0 ∧
    ecount (Event.close (PyVal.session 9))
      (wrapper [] [] [("session", PyVal.session 9)] (fun _ => Except.ok (1 : Nat))
        defaultRetryable 2 behOk 0).2 = 0 :=
  ⟨(supplied_session_no_factory_no_close [] [] [("session", PyVal.session 9)]
      (fun _ => Except.ok (1 : Nat)) defaultRetryable 2 behOk 0
      (Or.inl (by decide))).1 0,
   (supplied_session_no_factory_no_close [] [] [("session", PyVal.session 9)]
      (fun _ => Except.ok (1 : Nat)) defaultRetryable 2 behOk 0
      (Or.inl (by decide))).2 (PyVal.session 9)⟩

/-- C9: when the caller supplies the session by keyword and the operation
raises a non-retryable failure on its first invocation, the retry
executor performs no rollback at all on that session and the failure
propagates immediately: exactly one invocation, no further attempts. -/
theorem kwargs_fatal_no_rollback_fail_fast {α : Type} (op : Nat → Except Err α)
    (retryable : Err → Bool) (beh : Nat → SessionBehavior) (attempts : Int)
    (func_params : List String) (args : List PyVal)
    (kwargs : List (String × PyVal)) (sv : PyVal) (freshId : Nat) (e : Err)
    (hkv : kwargs.lookup "session" = some sv)
    (hop : op 0 = Except.error e) (hr : retryable e = false)
    (hA : 1 ≤ attempts) :
    (wrapper func_params args kwargs op retryable attempts beh freshId).1
      = Except.error e ∧
    ecount Event.opCall
      (wrapper func_params args kwargs op retryable attempts beh freshId).2 = 1 ∧
    ecount (Event.rollback sv)
      (wrapper func_params args kwargs op retryable attempts beh freshId).2 = 0 := by
  have hk : session_in_kwargs kwargs = true := by
    rw [session_in_kwargs, hkv]; rfl
  rw [wrapper_kwargs_eq func_params args kwargs op retryable attempts beh freshId hk,
    hkv]
  simp only [Option.getD_some]
  obtain ⟨m, hm⟩ : ∃ m, attempts.toNat = m + 1 := ⟨attempts.toNat - 1, by omega⟩
  have hRT : retryable_transaction op retryable beh sv attempts
      = (Except.error e, [Event.opCall]) := by
    rw [retryable_transaction, hm, List.range_eq_range', List.range'_succ]
    exact retryLoop_cons_fatal op retryable beh sv attempts 0 _ e hop hr
  rw [hRT]
  refine ⟨rfl, ?_, ?_⟩
  · simp [ecount_cons, ecount_nil]
  · simp [ecount_cons, ecount_nil]

/-- C9 witness: keyword-supplied session `9`, non-retryable failure: the
failure propagates after one invocation and zero rollbacks. -/
theorem kwargs_fatal_no_rollback_fail_fast_witness :
    (wrapper [] [] [("session", PyVal.session 9)]
        (fun _ => (Except.error (Err.other 8) : Except Err Nat))
        defaultRetryable 2 behOk 0).1 = Except.error (Err.other 8) ∧
    ecount (Event.rollback (PyVal.session 9))
      (wrapper [] [] [("session", PyVal.session 9)]
        (fun _ => (Except.error (Err.other 8) : Except Err Nat))
        defaultRetryable 2 behOk 0).2 = 0 :=
  ⟨(kwargs_fatal_no_rollback_fail_fast
      (fun _ => (Except.error (Err.other 8) : Except Err Nat)) defaultRetryable behOk 2
      [] [] [("session", PyVal.session 9)] (PyVal.session 9) 0 (Err.other 8)
      (by decide) rfl rfl (by omega)).1,
   (kwargs_fatal_no_rollback_fail_fast
      (fun _ => (Except.error (Err.other 8) : Except Err Nat)) defaultRetryable behOk 2
      [] [] [("session", PyVal.session 9)] (PyVal.session 9) 0 (Err.other 8)
      (by decide) rfl rfl (by omega)).2.2⟩

/-- C10: with `attempts ≤ 0` and no caller-supplied session (and a fresh
session whose commit behaves), the `for i in range(attempts)` loop never
runs: the wrapped call returns `None` without ever invoking the wrapped
operation, yet a session is still created, committed and closed by the
scope. -/
theorem nonpositive_attempts_returns_none_commits {α : Type}
    (op : Nat → Except Err α) (retryable : Err → Bool)
    (beh : Nat → SessionBehavior) (attempts : Int) (freshId : Nat)
    (func_params : List String) (args : List PyVal)
    (kwargs : List (String × PyVal))
    (hA : attempts ≤ 0)
    (hk : session_in_kwargs kwargs = false)
    (ha : session_in_args func_params args = false)
    (hc : (beh freshId).commitErr = none) :
    (wrapper func_params args kwargs op retryable attempts beh freshId).1
      = Except.ok none ∧
    ecount Event.opCall
      (wrapper func_params args kwargs op retryable attempts beh freshId).2 = 0 ∧
    ecount (Event.factoryNew freshId)
      (wrapper func_params args kwargs op retryable attempts beh freshId).2 = 1 ∧
    ecount (Event.commit (PyVal.session freshId))
      (wrapper func_params args kwargs op retryable attempts beh freshId).2 = 1 ∧
    ecount (Event.close (PyVal.session freshId))
      (wrapper func_params args kwargs op retryable attempts beh freshId).2 = 1 := by
  rw [wrapper_owned_eq func_params args kwargs op retryable attempts beh freshId hk ha]
  have h0 : attempts.toNat = 0 := by omega
  have hbody : (fun session => retryable_transaction op retryable beh session attempts)
      (PyVal.session freshId) = (Except.ok none, []) := by
    show retryable_transaction op retryable beh (PyVal.session freshId) attempts
      = (Except.ok none, [])
    rw [retryable_transaction, h0]
    rfl
  rw [create_session_ok beh freshId _ none [] hbody hc]
  refine ⟨rfl, ?_, ?_, ?_, ?_⟩
  · simp [ecount_cons, ecount_append, ecount_nil]
  · simp [ecount_cons, ecount_append, ecount_nil]
  · simp [ecount_cons, ecount_append, ecount_nil]
  · simp [ecount_cons, ecount_append, ecount_nil]

/-- C10 witness: `attempts = 0`, no session supplied: the call returns
`None`, the operation never runs, and the scope created, committed and
closed its session once each. -/
theorem nonpositive_attempts_returns_none_commits_witness :
    (wrapper [] [] [] (fun _ => Except.ok (7 : Nat))
        defaultRetryable 0 behOk 0).1 = Except.ok none ∧
    ecount Event.opCall
      (wrapper [] [] [] (fun _ => Except.ok (7 : Nat))
        defaultRetryable 0 behOk 0).2 = 0 ∧
    ecount (Event.commit (PyVal.session 0))
      (wrapper [] [] [] (fun _ => Except.ok (7 : Nat))
        defaultRetryable 0 behOk 0).2 = 1 :=
  ⟨(nonpositive_attempts_returns_none_commits (fun _ => Except.ok (7 : Nat))
      defaultRetryable behOk 0 0 [] [] [] (by omega) rfl rfl rfl).1,
   (nonpositive_attempts_returns_none_commits (fun _ => Except.ok (7 : Nat))
      defaultRetryable behOk 0 0 [] [] [] (by omega) rfl rfl rfl).2.1,
   (nonpositive_attempts_returns_none_commits (fun _ => Except.ok (7 : Nat))
      defaultRetryable behOk 0 0 [] [] [] (by omega) rfl rfl rfl).2.2.2.1⟩

end AirflowSession
